import Mathlib

/-!
Verification of the coursework graphics repository: the hierarchical robot
renderer (matrix stack, keypress handlers, draw traversal), the 2D
circle-intersection predicate, and the trackball rotator.

Matrices are modelled over the real numbers; the JavaScript code computes with
IEEE floats, so real arithmetic is the idealised ("modulo floating-point
tolerance") semantics the spec refers to.
-/

/-- A 4x4 transformation matrix, the shallow embedding of the library type
used by the hierarchy demo (16 numbers, here over the reals). -/
abbrev M4 := Matrix (Fin 4) (Fin 4) ℝ

/-- Modelled from the spec: the matrix library file referenced by the page is
not under src, so its translation constructor is modelled from the spec's
words ("placement transform: translation composed with a rotation", claims
speak of translate(x,y,z)).  Standard homogeneous translation matrix; embeds
the source chain `new Matrix4().setTranslate(x, y, z)`. -/
def setTranslate (x y z : ℝ) : M4 :=
  !![1, 0, 0, x;
     0, 1, 0, y;
     0, 0, 1, z;
     0, 0, 0, 1]

/-- Modelled from the spec: rotation by an angle given in degrees about the
x axis (the library file is not under src).  Embeds the source call
`.rotate(ang, 1, 0, 0)` as right multiplication by this matrix. -/
noncomputable def rotateX (ang : ℝ) : M4 :=
  let c := Real.cos (ang * Real.pi / 180)
  let s := Real.sin (ang * Real.pi / 180)
  !![1, 0,  0, 0;
     0, c, -s, 0;
     0, s,  c, 0;
     0, 0,  0, 1]

/-- Modelled from the spec: rotation by an angle given in degrees about the
y (vertical) axis.  Embeds the source call `.rotate(ang, 0, 1, 0)` as right
multiplication by this matrix. -/
noncomputable def rotateY (ang : ℝ) : M4 :=
  let c := Real.cos (ang * Real.pi / 180)
  let s := Real.sin (ang * Real.pi / 180)
  !![ c, 0, s, 0;
      0, 1, 0, 0;
     -s, 0, c, 0;
      0, 0, 0, 1]

theorem setTranslate_mul (a b c d e f : ℝ) :
    setTranslate a b c * setTranslate d e f = setTranslate (a + d) (b + e) (c + f) := by
  ext i j
  fin_cases i <;> fin_cases j <;>
    simp [setTranslate, Matrix.mul_apply, Fin.sum_univ_four, Matrix.vecHead, Matrix.vecTail] <;> ring

theorem setTranslate_apply_entry (a b c : ℝ) :
    setTranslate a b c 0 3 = a := by
  simp [setTranslate]

theorem rotateX_zero : rotateX 0 = 1 := by
  have hc : Real.cos (0 * Real.pi / 180) = 1 := by norm_num
  have hs : Real.sin (0 * Real.pi / 180) = 0 := by norm_num
  ext i j
  fin_cases i <;> fin_cases j <;>
    simp [rotateX, hc, hs, Matrix.one_apply, Matrix.vecHead, Matrix.vecTail]

theorem setTranslate_ne_of_ne (a b c d e f : ℝ) (h : a ≠ d) :
    setTranslate a b c ≠ setTranslate d e f := by
  intro heq
  apply h
  have := congrFun (congrFun heq 0) 3
  simpa [setTranslate] using this

/-- The stack class from the hierarchy source: an array of elements (a JS
array may hold holes, so slots are Options) together with the top counter t.
Source fields: elements, t. -/
structure Stack (α : Type) where
  elements : Nat → Option α
  t : Nat

/-- The source constructor: empty element array, t = 0. -/
def Stack.empty {α : Type} : Stack α :=
  { elements := fun _ => none, t := 0 }

/-- Result of a stack method call: the returned value (none embeds the JS
undefined), the stack state after the call, and whether the underflow
warning was logged. -/
structure StackResult (α : Type) where
  ret : Option α
  st : Stack α
  warned : Bool

/-- Source push: stores m at index t, then increments t. -/
def Stack.push {α : Type} (s : Stack α) (m : α) : Stack α :=
  { elements := Function.update s.elements s.t (some m), t := s.t + 1 }

/-- Source top: when t is at most 0 it logs a warning and returns undefined,
leaving the stack untouched; otherwise it returns the element at t - 1. -/
def Stack.top {α : Type} (s : Stack α) : StackResult α :=
  if s.t ≤ 0 then
    { ret := none, st := s, warned := true }
  else
    { ret := s.elements (s.t - 1), st := s, warned := false }

/-- Source pop: when t is at most 0 it logs a warning and returns undefined,
leaving the stack untouched; otherwise it decrements t, reads the element
there, overwrites the slot with undefined and returns the element. -/
def Stack.pop {α : Type} (s : Stack α) : StackResult α :=
  if s.t ≤ 0 then
    { ret := none, st := s, warned := true }
  else
    { ret := s.elements (s.t - 1),
      st := { elements := Function.update s.elements (s.t - 1) none, t := s.t - 1 },
      warned := false }

/-- Source isEmpty: t at most 0. -/
def Stack.isEmpty {α : Type} (s : Stack α) : Bool :=
  decide (s.t ≤ 0)

/-- A stack method call, for reasoning about sequences of pushes and pops. -/
inductive StackOp (α : Type) where
  | push (m : α) : StackOp α
  | pop : StackOp α

/-- Runs a sequence of stack method calls, threading the stack state. -/
def runOps {α : Type} : List (StackOp α) → Stack α → Stack α
  | [], s => s
  | StackOp.push m :: rest, s => runOps rest (s.push m)
  | StackOp.pop :: rest, s => runOps rest (s.pop).st

/-- Number of push calls in an operation sequence. -/
def countPush {α : Type} : List (StackOp α) → Nat
  | [] => 0
  | StackOp.push _ :: rest => countPush rest + 1
  | StackOp.pop :: rest => countPush rest

/-- Number of pop calls in an operation sequence. -/
def countPop {α : Type} : List (StackOp α) → Nat
  | [] => 0
  | StackOp.push _ :: rest => countPop rest
  | StackOp.pop :: rest => countPop rest + 1

/-- True when every pop in the sequence happens on a nonempty stack, so the
underflow guard of Stack.pop never fires. -/
def noUnderflow {α : Type} : List (StackOp α) → Stack α → Bool
  | [], _ => true
  | StackOp.push m :: rest, s => noUnderflow rest (s.push m)
  | StackOp.pop :: rest, s => decide (0 < s.t) && noUnderflow rest (s.pop).st

theorem Stack.pop_st_t_of_pos {α : Type} (s : Stack α) (h : 0 < s.t) :
    (s.pop).st.t = s.t - 1 := by
  simp [Stack.pop, Nat.not_le.mpr h]

theorem runOps_t {α : Type} (ops : List (StackOp α)) (s : Stack α)
    (hnu : noUnderflow ops s = true) :
    (runOps ops s).t + countPop ops = s.t + countPush ops := by
  induction ops generalizing s with
  | nil => simp [runOps, countPush, countPop]
  | cons op rest ih =>
    cases op with
    | push m =>
      have h := ih (s.push m) (by simpa [noUnderflow] using hnu)
      simp only [runOps, countPush, countPop]
      have ht : (s.push m).t = s.t + 1 := rfl
      omega
    | pop =>
      simp only [noUnderflow, Bool.and_eq_true, decide_eq_true_eq] at hnu
      have h := ih (s.pop).st hnu.2
      have ht : (s.pop).st.t = s.t - 1 := Stack.pop_st_t_of_pos s hnu.1
      simp only [runOps, countPush, countPop]
      omega

/-- The mutable global state of the hierarchy demo: one angle and one
placement matrix per body part, as declared in the source globals. -/
structure RobotState where
  torsoAngle : ℝ
  shoulderLeftAngle : ℝ
  shoulderRightAngle : ℝ
  armLeftAngle : ℝ
  armRightAngle : ℝ
  legLeftAngle : ℝ
  legRightAngle : ℝ
  handLeftAngle : ℝ
  handRightAngle : ℝ
  headAngle : ℝ
  footLeftAngle : ℝ
  footRightAngle : ℝ
  ankleLeftAngle : ℝ
  ankleRightAngle : ℝ
  torsoMatrix : M4
  shoulderLeftMatrix : M4
  shoulderRightMatrix : M4
  armLeftMatrix : M4
  armRightMatrix : M4
  handLeftMatrix : M4
  handRightMatrix : M4
  headMatrix : M4
  legLeftMatrix : M4
  legRightMatrix : M4
  footLeftMatrix : M4
  footRightMatrix : M4
  ankleRightMatrix : M4
  ankleLeftMatrix : M4

/-- The load-time state: all angles 0, each placement matrix its hardcoded
initial translation from the source globals. -/
def initState : RobotState where
  torsoAngle := 0
  shoulderLeftAngle := 0
  shoulderRightAngle := 0
  armLeftAngle := 0
  armRightAngle := 0
  legLeftAngle := 0
  legRightAngle := 0
  handLeftAngle := 0
  handRightAngle := 0
  headAngle := 0
  footLeftAngle := 0
  footRightAngle := 0
  ankleLeftAngle := 0
  ankleRightAngle := 0
  torsoMatrix := setTranslate 0 0 0
  shoulderLeftMatrix := setTranslate 6.5 2 0
  shoulderRightMatrix := setTranslate (-6.5) 2 0
  armLeftMatrix := setTranslate 0 (-5) 0
  armRightMatrix := setTranslate 0 (-5) 0
  handLeftMatrix := setTranslate 0 (-4) 0
  handRightMatrix := setTranslate 0 (-4) 0
  headMatrix := setTranslate 0 7 0
  legLeftMatrix := setTranslate (-2) (-7) 0
  legRightMatrix := setTranslate 2 (-7) 0
  footLeftMatrix := setTranslate 0 (-2) 1.6
  footRightMatrix := setTranslate 0 (-2) 1.6
  ankleRightMatrix := setTranslate 0 (-4) 0
  ankleLeftMatrix := setTranslate 0 (-4) 0

/-- The characters the keypress switch recognizes, in source order. -/
def recognizedKeys : List Char :=
  ['t', 'T', 's', 'S', 'a', 'A', 'e', 'E', 'h', 'H', 'Q', 'q',
   'l', 'L', 'd', 'D', 'f', 'F', 'g', 'G', 'j', 'J', 'k', 'K']

/-- The keypress handler from the source: each recognized character adjusts
one angle by 15 degrees and rebuilds that part's placement matrix; the
default branch returns with the state untouched.  Method chains of the
matrix library embed as products, for example
setTranslate(0,2,0).rotate(-a,1,0,0).translate(0,-2,0) becomes
setTranslate 0 2 0 * rotateX (-a) * setTranslate 0 (-2) 0, and
m.setTranslate(p).multiply(q) becomes setTranslate p * q. -/
noncomputable def handleKeyPress (ch : Char) (s : RobotState) : RobotState :=
  if ch = 't' then
    let a := s.torsoAngle + 15
    { s with torsoAngle := a, torsoMatrix := setTranslate 0 0 0 * rotateY a }
  else if ch = 'T' then
    let a := s.torsoAngle - 15
    { s with torsoAngle := a, torsoMatrix := setTranslate 0 0 0 * rotateY a }
  else if ch = 's' then
    let a := s.shoulderRightAngle + 15
    { s with shoulderRightAngle := a,
             shoulderRightMatrix := setTranslate (-6.5) 2 0 *
               (setTranslate 0 2 0 * rotateX (-a) * setTranslate 0 (-2) 0) }
  else if ch = 'S' then
    let a := s.shoulderRightAngle - 15
    { s with shoulderRightAngle := a,
             shoulderRightMatrix := setTranslate (-6.5) 2 0 *
               (setTranslate 0 2 0 * rotateX (-a) * setTranslate 0 (-2) 0) }
  else if ch = 'a' then
    let a := s.armRightAngle + 15
    { s with armRightAngle := a,
             armRightMatrix := setTranslate 0 (-5) 0 *
               (setTranslate 0 2.5 1 * rotateX (-a) * setTranslate 0 (-2.5) (-1)) }
  else if ch = 'A' then
    let a := s.armRightAngle - 15
    { s with armRightAngle := a,
             armRightMatrix := setTranslate 0 (-5) 0 *
               (setTranslate 0 2.5 1 * rotateX (-a) * setTranslate 0 (-2.5) (-1)) }
  else if ch = 'e' then
    let a := s.armLeftAngle + 15
    { s with armLeftAngle := a,
             armLeftMatrix := setTranslate 0 (-5) 0 *
               (setTranslate 0 2.5 1 * rotateX (-a) * setTranslate 0 (-2.5) (-1)) }
  else if ch = 'E' then
    let a := s.armLeftAngle - 15
    { s with armLeftAngle := a,
             armLeftMatrix := setTranslate 0 (-5) 0 *
               (setTranslate 0 2.5 1 * rotateX (-a) * setTranslate 0 (-2.5) (-1)) }
  else if ch = 'h' then
    let a := s.handLeftAngle + 15
    { s with handLeftAngle := a,
             handLeftMatrix := setTranslate 0 (-4) 0 * rotateY a }
  else if ch = 'H' then
    let a := s.handLeftAngle - 15
    { s with handLeftAngle := a,
             handLeftMatrix := setTranslate 0 (-4) 0 * rotateY a }
  else if ch = 'Q' then
    let a := s.handRightAngle + 15
    { s with handRightAngle := a,
             handRightMatrix := setTranslate 0 (-4) 0 * rotateY a }
  else if ch = 'q' then
    let a := s.handRightAngle - 15
    { s with handRightAngle := a,
             handRightMatrix := setTranslate 0 (-4) 0 * rotateY a }
  else if ch = 'l' then
    let a := s.headAngle + 15
    { s with headAngle := a, headMatrix := setTranslate 0 7 0 * rotateY a }
  else if ch = 'L' then
    let a := s.headAngle - 15
    { s with headAngle := a, headMatrix := setTranslate 0 7 0 * rotateY a }
  else if ch = 'd' then
    let a := s.shoulderLeftAngle + 15
    { s with shoulderLeftAngle := a,
             shoulderLeftMatrix := setTranslate 6.5 2 0 *
               (setTranslate 0 2 0 * rotateX (-a) * setTranslate 0 (-2) 0) }
  else if ch = 'D' then
    let a := s.shoulderLeftAngle - 15
    { s with shoulderLeftAngle := a,
             shoulderLeftMatrix := setTranslate 6.5 2 0 *
               (setTranslate 0 2 0 * rotateX (-a) * setTranslate 0 (-2) 0) }
  else if ch = 'f' then
    let a := s.legRightAngle + 15
    { s with legRightAngle := a,
             legRightMatrix := setTranslate 3 (-7) 0 *
               (setTranslate 0 2 0 * rotateX (-a) * setTranslate 0 (-2) 0) }
  else if ch = 'F' then
    let a := s.legRightAngle - 15
    { s with legRightAngle := a,
             legRightMatrix := setTranslate 3 (-7) 0 *
               (setTranslate 0 2 0 * rotateX (-a) * setTranslate 0 (-2) 0) }
  else if ch = 'g' then
    let a := s.legLeftAngle + 15
    { s with legLeftAngle := a,
             legLeftMatrix := setTranslate (-2) (-7) 0 *
               (setTranslate 0 2 0 * rotateX (-a) * setTranslate 0 (-2) 0) }
  else if ch = 'G' then
    let a := s.legLeftAngle - 15
    { s with legLeftAngle := a,
             legLeftMatrix := setTranslate (-2) (-7) 0 *
               (setTranslate 0 2 0 * rotateX (-a) * setTranslate 0 (-2) 0) }
  else if ch = 'j' then
    let a := s.ankleLeftAngle + 15
    { s with ankleLeftAngle := a,
             ankleLeftMatrix := setTranslate 0 (-4) 0 *
               (setTranslate 0 2 0 * rotateX (-a) * setTranslate 0 (-2) 0) }
  else if ch = 'J' then
    let a := s.ankleLeftAngle - 15
    { s with ankleLeftMatrix := setTranslate 0 (-4) 0 *
               (setTranslate 0 2 0 * rotateX (-a) * setTranslate 0 (-2) 0),
             ankleLeftAngle := a }
  else if ch = 'k' then
    let a := s.ankleRightAngle + 15
    { s with ankleRightAngle := a,
             ankleRightMatrix := setTranslate 0 (-4) 0 *
               (setTranslate 0 2 0 * rotateX (-a) * setTranslate 0 (-2) 0) }
  else if ch = 'K' then
    let a := s.ankleRightAngle - 15
    { s with ankleRightAngle := a,
             ankleRightMatrix := setTranslate 0 (-4) 0 *
               (setTranslate 0 2 0 * rotateX (-a) * setTranslate 0 (-2) 0) }
  else
    s

/-- Modelled from the spec: the matrix library constructor new Matrix4(m)
copies m, and yields the identity when m is undefined (the library file is
not under src).  Used on the value of Stack.top. -/
def matrix4New (o : Option M4) : M4 := o.getD 1

/-- Trace of one draw call: the matrix stack it creates, the model matrices
pushed in order, and the number of pop calls made. -/
structure DrawTrace where
  stack : Stack M4
  pushed : List M4
  pops : Nat

/-- One push in the draw traversal, recording the pushed model matrix. -/
def dpush (tr : DrawTrace) (m : M4) : DrawTrace :=
  { stack := tr.stack.push m, pushed := tr.pushed ++ [m], pops := tr.pops }

/-- One pop in the draw traversal, counting the call. -/
def dpop (tr : DrawTrace) : DrawTrace :=
  { stack := (tr.stack.pop).st, pushed := tr.pushed, pops := tr.pops + 1 }

/-- The cumulative transform read from the top of the stack, as the source
reads it: new Matrix4(s.top()). -/
def dtop (tr : DrawTrace) : M4 := matrix4New (tr.stack.top).ret

/-- The draw traversal from the source, replaying its stack operations in
order.  Rendering calls only read the top of the stack and are omitted.
Note the source pushes ankleRightMatrix under the left leg and
ankleLeftMatrix under the right leg. -/
def draw (st : RobotState) : DrawTrace :=
  let t0 : DrawTrace := { stack := Stack.empty, pushed := [], pops := 0 }
  let t1 := dpush t0 st.torsoMatrix
  let t2 := dpush t1 (dtop t1 * st.shoulderLeftMatrix)
  let t3 := dpush t2 (dtop t2 * st.armLeftMatrix)
  let t4 := dpush t3 (dtop t3 * st.handLeftMatrix)
  let t5 := dpop (dpop (dpop t4))
  let t6 := dpush t5 (dtop t5 * st.shoulderRightMatrix)
  let t7 := dpush t6 (dtop t6 * st.armRightMatrix)
  let t8 := dpush t7 (dtop t7 * st.handRightMatrix)
  let t9 := dpop (dpop (dpop t8))
  let t10 := dpush t9 (dtop t9 * st.headMatrix)
  let t11 := dpop t10
  let t12 := dpush t11 (dtop t11 * st.legLeftMatrix)
  let t13 := dpush t12 (dtop t12 * st.ankleRightMatrix)
  let t14 := dpush t13 (dtop t13 * st.footLeftMatrix)
  let t15 := dpop (dpop (dpop t14))
  let t16 := dpush t15 (dtop t15 * st.legRightMatrix)
  let t17 := dpush t16 (dtop t16 * st.ankleLeftMatrix)
  let t18 := dpush t17 (dtop t17 * st.footRightMatrix)
  let t19 := dpop (dpop (dpop t18))
  dpop t19

namespace vec2d

/-- Modelled from the spec: the vector library's Euclidean distance between
two points (the library file is not under src; the spec describes the test
as center-distance versus summed radii). -/
noncomputable def dist (a b : ℝ × ℝ) : ℝ :=
  Real.sqrt ((a.1 - b.1) * (a.1 - b.1) + (a.2 - b.2) * (a.2 - b.2))

end vec2d

/-- The circle-circle test from the intersection demo source: returns false
when the center distance exceeds the radius sum, true otherwise. -/
noncomputable def circleCircleIntersect
    (center1 : ℝ × ℝ) (radius1 : ℝ) (center2 : ℝ × ℝ) (radius2 : ℝ) : Prop :=
  ¬ (vec2d.dist center1 center2 > radius1 + radius2)

namespace SimpleRotator

/-- Three-component vectors, as the rotator's length-3 arrays. -/
abbrev Vec3 := Fin 3 → ℝ

/-- Source dot product. -/
def dot (v w : Vec3) : ℝ := v 0 * w 0 + v 1 * w 1 + v 2 * w 2

/-- Source vector length. -/
noncomputable def length (v : Vec3) : ℝ :=
  Real.sqrt (v 0 * v 0 + v 1 * v 1 + v 2 * v 2)

/-- Source normalize: divides each component by the length. -/
noncomputable def normalize (w : Vec3) : Vec3 :=
  fun i => w i / length w

/-- Source subtract. -/
def subtract (v w : Vec3) : Vec3 := fun i => v i - w i

/-- Source scale. -/
def scale (v : Vec3) (num : ℝ) : Vec3 := fun i => v i * num

/-- Source cross product. -/
def cross (v w : Vec3) : Vec3 :=
  ![v 1 * w 2 - v 2 * w 1, v 2 * w 0 - v 0 * w 2, v 0 * w 1 - v 1 * w 0]

/-- The rotator's internal state: the three basis vectors and the view
distance. -/
structure RotState where
  unitx : Vec3
  unity : Vec3
  unitz : Vec3
  viewZ : ℝ

/-- Source setView.  Absent optional arguments are none; the defaults are
direction [0,0,10] and up [0,1,0], and when no (nonzero, numeric) view
distance is given the length of the view direction is used.  unity is
computed as the up vector minus its projection on unitz, normalized, and
unitx as cross of unity and unitz. -/
noncomputable def setView
    (viewDirectionVector viewUpVector : Option Vec3)
    (viewDistance : Option ℝ) : RotState :=
  let viewpoint := viewDirectionVector.getD ![0, 0, 10]
  let viewup := viewUpVector.getD ![0, 1, 0]
  let viewZ := viewDistance.getD (length viewpoint)
  let unitz := normalize viewpoint
  let unity := normalize (subtract viewup (scale unitz (dot unitz viewup)))
  let unitx := cross unity unitz
  { unitx := unitx, unity := unity, unitz := unitz, viewZ := viewZ }

/-- Source getViewMatrixArray: the 16 entries in column-major order, basis
vectors in the rotation block and the negated view distance in the
translation component. -/
def getViewMatrixArray (r : RotState) : List ℝ :=
  [r.unitx 0, r.unity 0, r.unitz 0, 0,
   r.unitx 1, r.unity 1, r.unitz 1, 0,
   r.unitx 2, r.unity 2, r.unitz 2, 0,
   0, 0, -r.viewZ, 1]

/-- The state after the constructor runs with only the canvas argument, as
the hierarchy demo creates it: setView is called with no optional
arguments, and no drag has been performed. -/
noncomputable def initialRotState : RotState := setView none none none

end SimpleRotator

/-- C2 counterexample: the claim quantifies over any interleaving from any
starting depth, but a pop on an empty stack is a guarded no-op, so the
sequence pop-then-push has one push and one pop yet ends at depth 1, not at
the starting depth 0. -/
theorem stack_depth_claim_cex :
    countPush [StackOp.pop, StackOp.push (0 : Nat)] = 1 ∧
    countPop [StackOp.pop, StackOp.push (0 : Nat)] = 1 ∧
    (runOps [StackOp.pop, StackOp.push (0 : Nat)] Stack.empty).t ≠
      (Stack.empty : Stack Nat).t := by
  refine ⟨rfl, rfl, ?_⟩
  decide

/-- C2 (amended): for every sequence with as many pushes as pops in which no
pop is performed on an empty stack, the final depth equals the starting
depth; and isEmpty is true exactly when the depth is zero. -/
theorem stack_depth_roundtrip {α : Type} (ops : List (StackOp α)) (s : Stack α)
    (hnu : noUnderflow ops s = true) (hbal : countPush ops = countPop ops) :
    (runOps ops s).t = s.t ∧ ∀ s2 : Stack α, s2.isEmpty = true ↔ s2.t = 0 := by
  constructor
  · have h := runOps_t ops s hnu
    omega
  · intro s2
    simp [Stack.isEmpty, Nat.le_zero]

/-- Witness for stack_depth_roundtrip at the concrete run push 5 then pop on
an empty stack. -/
theorem stack_depth_roundtrip_witness :
    noUnderflow [StackOp.push (5 : Nat), StackOp.pop] Stack.empty = true ∧
    countPush [StackOp.push (5 : Nat), StackOp.pop] =
      countPop [StackOp.push (5 : Nat), StackOp.pop] ∧
    (runOps [StackOp.push (5 : Nat), StackOp.pop] Stack.empty).t =
      (Stack.empty : Stack Nat).t :=
  ⟨by decide, rfl,
    (stack_depth_roundtrip [StackOp.push (5 : Nat), StackOp.pop] Stack.empty
      (by decide) rfl).1⟩

/-- C4: on a stack of depth zero, top and pop log the underflow warning,
return the undefined value, and leave the stack (its depth and its stored
elements) unchanged; both are total functions, so no exception is raised. -/
theorem stack_underflow_behavior {α : Type} (s : Stack α) (h : s.t = 0) :
    (s.top).ret = none ∧ (s.top).st = s ∧ (s.top).warned = true ∧
    (s.pop).ret = none ∧ (s.pop).st = s ∧ (s.pop).warned = true := by
  simp [Stack.top, Stack.pop, h]

/-- Witness for stack_underflow_behavior at the empty stack over Nat. -/
theorem stack_underflow_behavior_witness :
    (Stack.empty : Stack Nat).t = 0 ∧
    ((Stack.empty : Stack Nat).pop).st = Stack.empty :=
  ⟨rfl, (stack_underflow_behavior Stack.empty rfl).2.2.2.2.1⟩

/-- C5: one draw call performs exactly 14 pushes and 14 pops on the matrix
stack it creates, and at the end the stack is empty, so the branch logging
that pops do not match pushes is never taken. -/
theorem draw_pushes_balance_pops (st : RobotState) :
    (draw st).pushed.length = 14 ∧ (draw st).pops = 14 ∧
    (draw st).stack.isEmpty = true :=
  ⟨rfl, rfl, rfl⟩

/-- C1: from the load-time state, pressing f (+15) then F (-15) brings the
right-leg angle back to its initial value, yet rebuilds the right-leg
placement matrix as translate(3,-7,0), which differs from the hardcoded
initial translation translate(2,-7,0): the handler's offset does not match
the initial matrix, so the claimed round trip fails for the right leg. -/
theorem legRight_roundtrip_breaks :
    (handleKeyPress 'F' (handleKeyPress 'f' initState)).legRightAngle =
      initState.legRightAngle ∧
    (handleKeyPress 'F' (handleKeyPress 'f' initState)).legRightMatrix =
      setTranslate 3 (-7) 0 ∧
    initState.legRightMatrix = setTranslate 2 (-7) 0 ∧
    setTranslate 3 (-7) 0 ≠ setTranslate 2 (-7) 0 := by
  refine ⟨?_, ?_, rfl, setTranslate_ne_of_ne 3 (-7) 0 2 (-7) 0 (by norm_num)⟩
  · show (0 : ℝ) + 15 - 15 = 0
    norm_num
  · have hred : (handleKeyPress 'F' (handleKeyPress 'f' initState)).legRightMatrix =
        setTranslate 3 (-7) 0 *
          (setTranslate 0 2 0 * rotateX (-(0 + 15 - 15)) * setTranslate 0 (-2) 0) := rfl
    rw [hred, show (-(0 + 15 - 15) : ℝ) = 0 by norm_num, rotateX_zero, mul_one,
      setTranslate_mul, setTranslate_mul]
    norm_num

/-- A draw input state in which the two ankle placements differ: the
load-time state with the right-ankle placement replaced. -/
def ankleTestState : RobotState :=
  { initState with ankleRightMatrix := setTranslate 9 9 9 }

/-- C3: in the draw traversal the model matrix pushed in the left-ankle
position (the tenth push, index 9) is the parent transform times the RIGHT
ankle's placement matrix, and when the two ankle placements differ this is
not the parent times the left ankle's own placement, contradicting the
claimed pairing. -/
theorem draw_left_ankle_uses_right_placement :
    (draw ankleTestState).pushed[9]? =
      some (ankleTestState.torsoMatrix * ankleTestState.legLeftMatrix *
        ankleTestState.ankleRightMatrix) ∧
    ankleTestState.torsoMatrix * ankleTestState.legLeftMatrix *
        ankleTestState.ankleRightMatrix ≠
      ankleTestState.torsoMatrix * ankleTestState.legLeftMatrix *
        ankleTestState.ankleLeftMatrix := by
  refine ⟨rfl, ?_⟩
  have h1 : ankleTestState.torsoMatrix * ankleTestState.legLeftMatrix *
      ankleTestState.ankleRightMatrix = setTranslate 7 2 9 := by
    show setTranslate 0 0 0 * setTranslate (-2) (-7) 0 * setTranslate 9 9 9 = _
    rw [setTranslate_mul, setTranslate_mul]
    norm_num
  have h2 : ankleTestState.torsoMatrix * ankleTestState.legLeftMatrix *
      ankleTestState.ankleLeftMatrix = setTranslate (-2) (-11) 0 := by
    show setTranslate 0 0 0 * setTranslate (-2) (-7) 0 * setTranslate 0 (-4) 0 = _
    rw [setTranslate_mul, setTranslate_mul]
    norm_num
  rw [h1, h2]
  exact setTranslate_ne_of_ne 7 2 9 (-2) (-11) 0 (by norm_num)

/-- C6: from a state whose torso angle is 0 and whose torso placement is the
identity translation, pressing t sets the torso placement matrix to
translate(0,0,0) times the rotation of 15 degrees about the y axis. -/
theorem torso_press_t (s : RobotState) (h1 : s.torsoAngle = 0)
    (h2 : s.torsoMatrix = setTranslate 0 0 0) :
    (handleKeyPress 't' s).torsoMatrix = setTranslate 0 0 0 * rotateY 15 := by
  have hred : (handleKeyPress 't' s).torsoMatrix =
      setTranslate 0 0 0 * rotateY (s.torsoAngle + 15) := rfl
  rw [hred, h1, zero_add]

/-- Witness for torso_press_t at the load-time state. -/
theorem torso_press_t_witness :
    initState.torsoAngle = 0 ∧ initState.torsoMatrix = setTranslate 0 0 0 ∧
    (handleKeyPress 't' initState).torsoMatrix = setTranslate 0 0 0 * rotateY 15 :=
  ⟨rfl, rfl, torso_press_t initState rfl rfl⟩

/-- C9: a keypress whose character is none of the recognized body-part keys
leaves the whole state, all fourteen angles and all fourteen placement
matrices, unchanged. -/
theorem handleKeyPress_unrecognized (c : Char) (s : RobotState)
    (h : c ∉ recognizedKeys) : handleKeyPress c s = s := by
  simp only [recognizedKeys, List.mem_cons, List.not_mem_nil, or_false, not_or] at h
  obtain ⟨h1, h2, h3, h4, h5, h6, h7, h8, h9, h10, h11, h12, h13, h14, h15, h16,
    h17, h18, h19, h20, h21, h22, h23, h24⟩ := h
  simp [handleKeyPress, h1, h2, h3, h4, h5, h6, h7, h8, h9, h10, h11, h12, h13,
    h14, h15, h16, h17, h18, h19, h20, h21, h22, h23, h24]

/-- Witness for handleKeyPress_unrecognized at the character z. -/
theorem handleKeyPress_unrecognized_witness :
    'z' ∉ recognizedKeys ∧ handleKeyPress 'z' initState = initState :=
  ⟨by decide, handleKeyPress_unrecognized 'z' initState (by decide)⟩

/-- C7: the demo circles at (100,100) and (250,100), both of radius 50, do
not intersect (distance 150 exceeds the radius sum 100); moving the second
center to (140,100) makes the test return true. -/
theorem circleCircleIntersect_demo :
    ¬ circleCircleIntersect (100, 100) 50 (250, 100) 50 ∧
    circleCircleIntersect (100, 100) 50 (140, 100) 50 := by
  have hd1 : vec2d.dist (100, 100) (250, 100) = 150 := by
    show Real.sqrt (((100 : ℝ) - 250) * ((100 : ℝ) - 250) +
      ((100 : ℝ) - 100) * ((100 : ℝ) - 100)) = 150
    rw [show ((100 : ℝ) - 250) * ((100 : ℝ) - 250) +
      ((100 : ℝ) - 100) * ((100 : ℝ) - 100) = 150 ^ 2 by norm_num]
    exact Real.sqrt_sq (by norm_num)
  have hd2 : vec2d.dist (100, 100) (140, 100) = 40 := by
    show Real.sqrt (((100 : ℝ) - 140) * ((100 : ℝ) - 140) +
      ((100 : ℝ) - 100) * ((100 : ℝ) - 100)) = 40
    rw [show ((100 : ℝ) - 140) * ((100 : ℝ) - 140) +
      ((100 : ℝ) - 100) * ((100 : ℝ) - 100) = 40 ^ 2 by norm_num]
    exact Real.sqrt_sq (by norm_num)
  constructor
  · simp only [circleCircleIntersect, hd1, not_not]
    norm_num
  · simp only [circleCircleIntersect, hd2]
    norm_num

/-- C10: the circle-circle test holds exactly when the center distance is at
most the radius sum, so exactly tangent circles count as intersecting, and
the test is symmetric in its two circles. -/
theorem circleCircleIntersect_le_and_symm (c1 c2 : ℝ × ℝ) (r1 r2 : ℝ) :
    (circleCircleIntersect c1 r1 c2 r2 ↔ vec2d.dist c1 c2 ≤ r1 + r2) ∧
    (circleCircleIntersect c1 r1 c2 r2 ↔ circleCircleIntersect c2 r2 c1 r1) := by
  have hsymm : vec2d.dist c1 c2 = vec2d.dist c2 c1 := by
    simp only [vec2d.dist]
    ring_nf
  constructor
  · simp [circleCircleIntersect, gt_iff_lt, not_lt]
  · simp only [circleCircleIntersect, hsymm, add_comm r1 r2]

/-- C8: with no drag performed, the rotator state is exactly what setView
derives from the default view direction [0,0,10] and up vector [0,1,0]: the
canonical orthonormal basis, so the view matrix is the column-major identity
rotation block with view distance 10 negated in the translation component. -/
theorem initial_view_matrix :
    SimpleRotator.getViewMatrixArray SimpleRotator.initialRotState =
      [1, 0, 0, 0, 0, 1, 0, 0, 0, 0, 1, 0, 0, 0, -10, 1] := by
  have hlen : SimpleRotator.length ![0, 0, 10] = 10 := by
    show Real.sqrt ((0 : ℝ) * 0 + 0 * 0 + 10 * 10) = 10
    rw [show (0 : ℝ) * 0 + 0 * 0 + 10 * 10 = 10 ^ 2 by norm_num]
    exact Real.sqrt_sq (by norm_num)
  have hz : SimpleRotator.normalize ![0, 0, 10] = ![0, 0, 1] := by
    funext i
    fin_cases i <;> simp [SimpleRotator.normalize, hlen]
  have hdot : SimpleRotator.dot ![0, 0, 1] ![0, 1, 0] = 0 := by
    show (0 : ℝ) * 0 + 0 * 1 + 1 * 0 = 0
    norm_num
  have hsub : SimpleRotator.subtract ![0, 1, 0] (SimpleRotator.scale ![0, 0, 1] 0) =
      ![0, 1, 0] := by
    funext i
    fin_cases i <;> simp [SimpleRotator.subtract, SimpleRotator.scale]
  have hlen1 : SimpleRotator.length ![0, 1, 0] = 1 := by
    show Real.sqrt ((0 : ℝ) * 0 + 1 * 1 + 0 * 0) = 1
    rw [show (0 : ℝ) * 0 + 1 * 1 + 0 * 0 = 1 by norm_num]
    exact Real.sqrt_one
  have hy : SimpleRotator.normalize ![0, 1, 0] = ![0, 1, 0] := by
    funext i
    fin_cases i <;> simp [SimpleRotator.normalize, hlen1]
  have hx : SimpleRotator.cross ![0, 1, 0] ![0, 0, 1] = ![1, 0, 0] := by
    funext i
    fin_cases i <;> simp [SimpleRotator.cross]
  show SimpleRotator.getViewMatrixArray (SimpleRotator.setView none none none) = _
  simp only [SimpleRotator.setView, Option.getD_none, hz, hdot, hsub, hy, hx, hlen]
  simp [SimpleRotator.getViewMatrixArray]
